import Mathlib

/-!
Formal model of the Reddit crawler core (src/crawler/): the parser, the
change-aware upsert store, the retrying HTTP transport, and the crawl
orchestrator, translated from the Python sources.

Modelling conventions, used throughout:
- Python `datetime` values are modelled as natural-number timestamps and
  every call of `datetime.utcnow()` inside one operation is modelled by a
  single explicit `now : Nat` parameter.
- Python `float` fields (`upvote_ratio`, delays) are carried opaquely as
  an integer stand-in `PyFloat`; no claim performs float arithmetic.
- Python `dict.get(k, default)` on typed payloads is modelled by `Option`
  fields read with `Option.getD`.
- Python exceptions are modelled explicitly: fallible parses carry a
  `wellFormed` flag (false models a payload whose dynamic shape makes the
  parse body raise, which the source catches per item), the transport
  takes an attempt oracle that may yield an exception outcome, and the
  store takes an optional fault describing a raised database error.
-/

namespace Crawler

/-- Opaque stand-in for Python float values: no claim compares or computes
with floats, only carries them structurally. -/
abbrev PyFloat := Int

/-- Python `x or default` for an optional string argument: `None` and the
empty string are falsy and select the default. -/
def pyOrStr : Option String → String → String
  | none, d => d
  | some s, d => if s = "" then d else s

/-- Python `x or default` for an optional integer argument: `None` and `0`
are falsy and select the default. -/
def pyOrNat : Option Nat → Nat → Nat
  | none, d => d
  | some n, d => if n = 0 then d else n

/-- Python truthiness of an optional string (`None` and `""` are falsy),
as used on pagination after-tokens. -/
def pyTruthyStr : Option String → Bool
  | none => false
  | some s => s != ""

/-- Apply `f` to every element satisfying `p`, leaving the rest unchanged:
the effect of a SQL `UPDATE ... WHERE p` on a table modelled as a list. -/
def updateBy (p : α → Bool) (f : α → α) : List α → List α :=
  List.map fun x => if p x then f x else x

/-! ## Data model (src/crawler/models.py) -/

/-- models.py `PostMedia`: the media variant attached to a post. -/
structure PostMedia where
  type : String
  url : Option String := none
  thumbnail : Option String := none
  gallery_urls : List String := []
deriving DecidableEq, Repr

/-- models.py `Post`: a parsed post record. -/
structure Post where
  post_id : String
  permalink : String
  url : String
  title : String
  selftext : String := ""
  selftext_html : Option String := none
  author : String := "[deleted]"
  author_is_deleted : Bool := false
  subreddit : String := ""
  subreddit_id : String := ""
  score : Int := 0
  upvote_ratio : PyFloat := 0
  num_comments : Int := 0
  gilded : Int := 0
  is_self : Bool := true
  is_video : Bool := false
  is_gallery : Bool := false
  media : Option PostMedia := none
  link_flair_text : Option String := none
  link_flair_css_class : Option String := none
  is_edited : Bool := false
  edited_at : Option Nat := none
  is_deleted : Bool := false
  is_removed : Bool := false
  stickied : Bool := false
  locked : Bool := false
  spoiler : Bool := false
  nsfw : Bool := false
  created_utc : Nat := 0
  fetched_at : Nat := 0
  last_updated : Nat := 0
  content_hash : String := ""
  comment_ids : List String := []
  comments_fetched_at : Option Nat := none
deriving DecidableEq, Repr

/-- models.py `Comment`: a parsed comment record. -/
structure Comment where
  comment_id : String
  post_id : String
  parent_id : String
  body : String
  body_html : Option String := none
  author : String := "[deleted]"
  author_is_deleted : Bool := false
  score : Int := 0
  upvote_ratio : Option PyFloat := none
  is_controversial : Bool := false
  gilded : Int := 0
  is_submitter : Bool := false
  is_edited : Bool := false
  edited_at : Option Nat := none
  is_deleted : Bool := false
  is_removed : Bool := false
  stickied : Bool := false
  depth : Nat := 0
  reply_count : Nat := 0
  created_utc : Nat := 0
  fetched_at : Nat := 0
  last_updated : Nat := 0
  content_hash : String := ""
  subreddit : String := ""
deriving DecidableEq, Repr

/-- models.py `CrawlState`: resumable crawl progress for one subreddit. -/
structure CrawlState where
  subreddit : String
  last_post_id : Option String := none
  after_token : Option String := none
  posts_crawled : Nat := 0
  comments_crawled : Nat := 0
  started_at : Nat := 0
  last_activity : Nat := 0
  is_complete : Bool := false
deriving DecidableEq, Repr

/-! ## Configuration (src/crawler/config.py) -/

/-- config.py `CrawlerConfig` with its dataclass defaults. The
postgres connection fields and the logging fields are connection/glue
settings not referenced by any modelled behaviour and are omitted. -/
structure CrawlerConfig where
  subreddit : String := "wallstreetbets"
  base_url : String := "https://www.reddit.com"
  max_posts : Nat := 100
  max_comments_per_post : Nat := 500
  comment_depth : Nat := 10
  sort_by : String := "new"
  time_filter : String := "all"
  request_delay : PyFloat := 2
  max_retries : Nat := 3
  retry_delay : PyFloat := 5
  timeout : Nat := 30
  update_existing : Bool := true
  fetch_all_comments : Bool := true
  include_deleted : Bool := false
deriving DecidableEq, Repr

/-- config.py `default_config = CrawlerConfig()`. -/
def default_config : CrawlerConfig := {}

/-! ## Store (src/crawler/database.py)

The PostgreSQL tables are modelled as lists of typed rows; `find?` models
`SELECT ... WHERE id = %s` + `fetchone()` and `updateBy` models
`UPDATE ... WHERE`.  The connection uses `autocommit = False`
(database.py:39) and each upsert branch commits exactly once at its end,
so a database exception raised anywhere in a branch leaves every write of
that branch uncommitted and `conn.rollback()` restores the state from
before the call; a raised fault is therefore modelled by returning the
input state unchanged.  The in-memory `self.stats` dictionary is
observability-only and is not part of the store state. -/

/-- A raised psycopg2 error inside an upsert: `integrity` models
`psycopg2.IntegrityError` (unique-key violation), `other` models any
other exception reaching the generic handler. -/
inductive PgErr where
  | integrity
  | other
deriving DecidableEq, Repr

/-- The bounded old/new snapshot stored in a change-log row
(database.py:201-212 for posts, database.py:384-393 for comments). -/
inductive LogValue where
  | postSnap (content_hash : String) (score : Int) (num_comments : Int) (selftext : String)
  | commentSnap (content_hash : String) (score : Int) (body : String)
deriving DecidableEq, Repr

/-- A row of the `change_log` table (database.py:162-171). -/
structure ChangeLogEntry where
  content_type : String
  content_id : String
  change_type : String
  old_value : LogValue
  new_value : LogValue
  changed_at : Nat
deriving DecidableEq, Repr

/-- A row of the `posts` table: the columns written by the INSERT at
database.py:252-280 plus the tracking columns `first_seen`,
`comment_ids`, `comments_fetched_at`.  The `comment_ids` column starts
NULL and is only ever read through `COALESCE(comment_ids, ARRAY[])`
(database.py:450-457), so NULL and the empty list are indistinguishable
and the column is modelled as a plain list. -/
structure PostRow where
  post_id : String
  permalink : String
  url : String
  title : String
  selftext : String
  selftext_html : Option String
  author : String
  author_is_deleted : Bool
  subreddit : String
  subreddit_id : String
  score : Int
  upvote_ratio : PyFloat
  num_comments : Int
  gilded : Int
  is_self : Bool
  is_video : Bool
  is_gallery : Bool
  media : Option PostMedia
  link_flair_text : Option String
  link_flair_css_class : Option String
  is_edited : Bool
  edited_at : Option Nat
  is_deleted : Bool
  is_removed : Bool
  stickied : Bool
  locked : Bool
  spoiler : Bool
  nsfw : Bool
  created_utc : Nat
  fetched_at : Nat
  first_seen : Nat
  last_updated : Nat
  content_hash : String
  comment_ids : List String
  comments_fetched_at : Option Nat
deriving DecidableEq, Repr

/-- A row of the `comments` table (columns written by the INSERT at
database.py:426-448; the `upvote_ratio` column is never written and
stays NULL). -/
structure CommentRow where
  comment_id : String
  post_id : String
  parent_id : String
  body : String
  body_html : Option String
  author : String
  author_is_deleted : Bool
  score : Int
  upvote_ratio : Option PyFloat
  is_controversial : Bool
  gilded : Int
  is_submitter : Bool
  is_edited : Bool
  edited_at : Option Nat
  is_deleted : Bool
  is_removed : Bool
  stickied : Bool
  depth : Nat
  reply_count : Nat
  created_utc : Nat
  fetched_at : Nat
  first_seen : Nat
  last_updated : Nat
  content_hash : String
  subreddit : String
deriving DecidableEq, Repr

/-- The database state: the four tables created in `_create_tables`. -/
structure DBState where
  posts : List PostRow := []
  comments : List CommentRow := []
  change_log : List ChangeLogEntry := []
  crawl_states : List CrawlState := []
deriving DecidableEq, Repr

/-- The row inserted by `upsert_post`'s INSERT branch (database.py:252-280):
`fetched_at`, `first_seen` and `last_updated` are all `datetime.utcnow()`. -/
def insertPostRow (p : Post) (now : Nat) : PostRow :=
  { post_id := p.post_id, permalink := p.permalink, url := p.url, title := p.title
    selftext := p.selftext, selftext_html := p.selftext_html, author := p.author
    author_is_deleted := p.author_is_deleted, subreddit := p.subreddit
    subreddit_id := p.subreddit_id, score := p.score, upvote_ratio := p.upvote_ratio
    num_comments := p.num_comments, gilded := p.gilded, is_self := p.is_self
    is_video := p.is_video, is_gallery := p.is_gallery, media := p.media
    link_flair_text := p.link_flair_text, link_flair_css_class := p.link_flair_css_class
    is_edited := p.is_edited, edited_at := p.edited_at, is_deleted := p.is_deleted
    is_removed := p.is_removed, stickied := p.stickied, locked := p.locked
    spoiler := p.spoiler, nsfw := p.nsfw, created_utc := p.created_utc
    fetched_at := now, first_seen := now, last_updated := now
    content_hash := p.content_hash, comment_ids := [], comments_fetched_at := none }

/-- The effect on one stored row of `upsert_post`'s UPDATE branch
(database.py:215-240): every SET column takes the newer post's value and
`last_updated` takes `datetime.utcnow()`; the columns absent from the SET
list (`created_utc`, `fetched_at`, `first_seen`, `comment_ids`,
`comments_fetched_at`) keep their stored values. -/
def postUpdateRow (r : PostRow) (p : Post) (now : Nat) : PostRow :=
  { r with permalink := p.permalink, url := p.url, title := p.title
           selftext := p.selftext, selftext_html := p.selftext_html, author := p.author
           author_is_deleted := p.author_is_deleted, subreddit := p.subreddit
           subreddit_id := p.subreddit_id, score := p.score, upvote_ratio := p.upvote_ratio
           num_comments := p.num_comments, gilded := p.gilded, is_self := p.is_self
           is_video := p.is_video, is_gallery := p.is_gallery, media := p.media
           link_flair_text := p.link_flair_text, link_flair_css_class := p.link_flair_css_class
           is_edited := p.is_edited, edited_at := p.edited_at, is_deleted := p.is_deleted
           is_removed := p.is_removed, stickied := p.stickied, locked := p.locked
           spoiler := p.spoiler, nsfw := p.nsfw, last_updated := now
           content_hash := p.content_hash }

/-- `_log_change` (database.py:559-579): appends one row to `change_log`
with `changed_at = datetime.utcnow()`. -/
def logChange (st : DBState) (content_type content_id change_type : String)
    (old_value new_value : LogValue) (now : Nat) : DBState :=
  { st with change_log := st.change_log ++
      [{ content_type := content_type, content_id := content_id
         change_type := change_type, old_value := old_value
         new_value := new_value, changed_at := now }] }

/-- `RedditDatabase.upsert_post` (database.py:186-292).  Returns the new
database state and the `(changed, action)` pair.  A `fault` of
`some e` models an exception raised inside the try block: the except
handlers roll the uncommitted transaction back (state unchanged) and
return `"duplicate"` for `IntegrityError` (database.py:285-288) or
`"error"` for anything else (database.py:289-292). -/
def upsert_post (fault : Option PgErr) (st : DBState) (p : Post) (now : Nat) :
    DBState × Bool × String :=
  match fault with
  | some .integrity => (st, false, "duplicate")
  | some .other => (st, false, "error")
  | none =>
    match st.posts.find? (fun r => r.post_id == p.post_id) with
    | some existing =>
      if existing.content_hash != p.content_hash then
        -- database.py:196-243: log the change, overwrite, report "updated"
        let st1 := logChange st "post" p.post_id "content_updated"
          (.postSnap existing.content_hash existing.score existing.num_comments
            (existing.selftext.take 500))
          (.postSnap p.content_hash p.score p.num_comments (p.selftext.take 500)) now
        ({ st1 with posts :=
            updateBy (fun r => r.post_id == p.post_id) (fun r => postUpdateRow r p now) st1.posts },
         true, "updated")
      else
        -- database.py:244-250: touch only last_updated, report "unchanged"
        ({ st with posts :=
            updateBy (fun r => r.post_id == p.post_id) (fun r => { r with last_updated := now }) st.posts },
         false, "unchanged")
    | none =>
      -- database.py:251-283: insert a fresh row, report "inserted"
      ({ st with posts := st.posts ++ [insertPostRow p now] }, true, "inserted")

/-- The row inserted by `upsert_comment`'s INSERT branch (database.py:426-448). -/
def insertCommentRow (c : Comment) (now : Nat) : CommentRow :=
  { comment_id := c.comment_id, post_id := c.post_id, parent_id := c.parent_id
    body := c.body, body_html := c.body_html, author := c.author
    author_is_deleted := c.author_is_deleted, score := c.score, upvote_ratio := none
    is_controversial := c.is_controversial, gilded := c.gilded
    is_submitter := c.is_submitter, is_edited := c.is_edited, edited_at := c.edited_at
    is_deleted := c.is_deleted, is_removed := c.is_removed, stickied := c.stickied
    depth := c.depth, reply_count := c.reply_count, created_utc := c.created_utc
    fetched_at := now, first_seen := now, last_updated := now
    content_hash := c.content_hash, subreddit := c.subreddit }

/-- The effect on one stored row of `upsert_comment`'s UPDATE branch
(database.py:396-414): the columns absent from the SET list
(`created_utc`, `fetched_at`, `first_seen`, `upvote_ratio`) keep their
stored values. -/
def commentUpdateRow (r : CommentRow) (c : Comment) (now : Nat) : CommentRow :=
  { r with post_id := c.post_id, parent_id := c.parent_id, body := c.body
           body_html := c.body_html, author := c.author
           author_is_deleted := c.author_is_deleted, score := c.score
           is_controversial := c.is_controversial, gilded := c.gilded
           is_submitter := c.is_submitter, is_edited := c.is_edited
           edited_at := c.edited_at, is_deleted := c.is_deleted
           is_removed := c.is_removed, stickied := c.stickied, depth := c.depth
           reply_count := c.reply_count, last_updated := now
           content_hash := c.content_hash, subreddit := c.subreddit }

/-- The post-table side effect of a successful comment insert
(database.py:450-457): append the comment id to the parent post's
`comment_ids` unless already present, stamping `comments_fetched_at`. -/
def registerCommentOnPost (posts : List PostRow) (c : Comment) (now : Nat) : List PostRow :=
  updateBy (fun r => r.post_id == c.post_id && !(r.comment_ids.contains c.comment_id))
    (fun r => { r with comment_ids := r.comment_ids ++ [c.comment_id]
                       comments_fetched_at := some now }) posts

/-- `RedditDatabase.upsert_comment` (database.py:369-470), with the same
fault convention as `upsert_post` (handlers at database.py:463-470). -/
def upsert_comment (fault : Option PgErr) (st : DBState) (c : Comment) (now : Nat) :
    DBState × Bool × String :=
  match fault with
  | some .integrity => (st, false, "duplicate")
  | some .other => (st, false, "error")
  | none =>
    match st.comments.find? (fun r => r.comment_id == c.comment_id) with
    | some existing =>
      if existing.content_hash != c.content_hash then
        -- database.py:379-417: log the change, overwrite, report "updated"
        let st1 := logChange st "comment" c.comment_id "content_updated"
          (.commentSnap existing.content_hash existing.score (existing.body.take 500))
          (.commentSnap c.content_hash c.score (c.body.take 500)) now
        ({ st1 with comments := (updateBy (fun r => r.comment_id == c.comment_id)
              (fun r => commentUpdateRow r c now) st1.comments) },
         true, "updated")
      else
        -- database.py:418-424: touch only last_updated, report "unchanged"
        ({ st with comments := (updateBy (fun r => r.comment_id == c.comment_id)
              (fun r => { r with last_updated := now }) st.comments) },
         false, "unchanged")
    | none =>
      -- database.py:425-461: insert and register on the parent post
      ({ st with comments := st.comments ++ [insertCommentRow c now],
                 posts := registerCommentOnPost st.posts c now },
       true, "inserted")

/-- `RedditDatabase.get_crawl_state` (database.py:608-624). -/
def get_crawl_state (st : DBState) (subreddit : String) : Option CrawlState :=
  st.crawl_states.find? (fun s => s.subreddit == subreddit)

/-- `RedditDatabase.save_crawl_state` (database.py:626-645):
INSERT ... ON CONFLICT (subreddit) DO UPDATE; the conflict-update SET
list omits `started_at`, so an existing row keeps its start time. -/
def save_crawl_state (st : DBState) (s : CrawlState) : DBState :=
  if st.crawl_states.any (fun r => r.subreddit == s.subreddit) then
    { st with crawl_states := (updateBy (fun r => r.subreddit == s.subreddit)
          (fun old => { s with started_at := old.started_at }) st.crawl_states) }
  else
    { st with crawl_states := st.crawl_states ++ [s] }

/-! ## Parser (src/crawler/parser.py)

The raw JSON payloads are modelled as typed structures whose `Option`
fields model `dict.get` misses.  Each fallible per-item parse carries a
`wellFormed` flag: `false` models a payload whose dynamic shape makes the
parse body raise a Python exception, which the source catches inside
`parse_post` (parser.py:155-157) / `parse_comment` (parser.py:224-226),
logging and returning `None`. -/

/-- `compute_content_hash` (parser.py:11-13) forms `"{content}:{score}"`
and digests it with MD5.  The digest is modelled by an injective
placeholder: every claim depends only on equality of digests, which the
placeholder preserves exactly (MD5 is collision-free in spec intent). -/
def compute_content_hash (content : String) (score : Int) : String :=
  content ++ ":" ++ toString score

/-- `parse_timestamp` (parser.py:16-22): `None` and `0` give `None`; the
epoch-seconds to datetime conversion is modelled as the identity (the
out-of-range `ValueError` branch does not arise for natural inputs). -/
def parse_timestamp : Option Nat → Option Nat
  | none => none
  | some t => if t = 0 then none else some t

/-- `RedditParser._is_deleted` (parser.py:42-47): body `None`/`""` is
falsy and skips the body check. -/
def is_deleted_check (author : String) (body : Option String) : Bool :=
  if author == "[deleted]" || author == "[removed]" then true
  else
    match body with
    | some b => b != "" && (b == "[deleted]" || b == "[removed]")
    | none => false

/-- The nested `post_data["media"]["reddit_video"]` object. -/
structure RawVideo where
  fallback_url : Option String := none
deriving DecidableEq, Repr

/-- The raw `media` object of a post payload. -/
structure RawMediaObj where
  reddit_video : Option RawVideo := none
deriving DecidableEq, Repr

/-- One entry of `gallery_data["items"]`. -/
structure RawGalleryItem where
  media_id : Option String := none
deriving DecidableEq, Repr

/-- The `"s"` object of a `media_metadata` entry. -/
structure RawMediaS where
  u : Option String := none
deriving DecidableEq, Repr

/-- One value of the `media_metadata` map. -/
structure RawMediaMeta where
  s : Option RawMediaS := none
deriving DecidableEq, Repr

/-- A raw post payload (the `"data"` object of a `t3` listing child),
with the fields `parse_post` and `_parse_media` read.  `wellFormed :=
false` models a payload whose dynamic field types make the parse body
raise (caught at parser.py:155-157). -/
structure RawPost where
  id : Option String := none
  permalink : Option String := none
  url : Option String := none
  title : Option String := none
  selftext : Option String := none
  selftext_html : Option String := none
  author : Option String := none
  subreddit : Option String := none
  subreddit_id : Option String := none
  score : Option Int := none
  upvote_ratio : Option PyFloat := none
  num_comments : Option Int := none
  gilded : Option Int := none
  is_self : Option Bool := none
  is_video : Option Bool := none
  is_gallery : Option Bool := none
  media : Option RawMediaObj := none
  gallery_items : List RawGalleryItem := []
  media_metadata : List (String × RawMediaMeta) := []
  thumbnail : Option String := none
  post_hint : Option String := none
  link_flair_text : Option String := none
  link_flair_css_class : Option String := none
  edited : Option Nat := none
  stickied : Option Bool := none
  locked : Option Bool := none
  spoiler : Option Bool := none
  over_18 : Option Bool := none
  created_utc : Option Nat := none
  wellFormed : Bool := true
deriving DecidableEq, Repr

/-- The empty raw post payload, the `{}` default of
`child.get("data", {})` (parser.py:242). -/
def emptyRawPost : RawPost := {}

/-- The gallery-resolution loop of `_parse_media` (parser.py:71-78):
for each gallery item, a truthy `media_id` present in `media_metadata`
whose entry has an `"s"` object contributes its `"u"` url (default `""`)
with `&amp;` unescaped to `&`, kept only when non-empty. -/
def galleryUrls (items : List RawGalleryItem) (meta : List (String × RawMediaMeta)) :
    List String :=
  match items with
  | [] => []
  | it :: rest =>
    (match it.media_id with
     | some mid =>
       if mid != "" then
         match meta.lookup mid with
         | some m =>
           match m.s with
           | some sObj =>
             let url := (sObj.u.getD "").replace "&amp;" "&"
             if url != "" then [url] else []
           | none => []
         | none => []
       else []
     | none => []) ++ galleryUrls rest meta

/-- Resolution of a single gallery item as worded by the specification:
resolve the item's media id against the metadata map and replace
HTML-escaped ampersands in the resolved url.  Stated separately from the
source-translated loop `galleryUrls` so the two can be compared. -/
def galleryItemSpec (meta : List (String × RawMediaMeta)) (it : RawGalleryItem) :
    Option String :=
  it.media_id.bind fun mid =>
    if mid = "" then none
    else (meta.lookup mid).bind fun m =>
      m.s.bind fun sObj =>
        let url := (sObj.u.getD "").replace "&amp;" "&"
        if url = "" then none else some url

/-- `RedditParser._parse_media` (parser.py:49-97): classify the media
variant by the post flags, in order self → video → gallery → link.  The
flag defaults mirror `dict.get`: `is_self` defaults to true, the others
to false.  The enclosing try/except (parser.py:95-97) is unreachable on
the typed payload model. -/
def parse_media (raw : RawPost) : Option PostMedia :=
  let is_self := raw.is_self.getD true
  let is_video := raw.is_video.getD false
  let is_gallery := raw.is_gallery.getD false
  if is_self then
    some { type := "self" }
  else if is_video then
    some { type := "video"
           url := (raw.media.bind RawMediaObj.reddit_video).bind RawVideo.fallback_url
           thumbnail := raw.thumbnail }
  else if is_gallery then
    some { type := "gallery"
           gallery_urls := galleryUrls raw.gallery_items raw.media_metadata
           thumbnail := raw.thumbnail }
  else
    some { type := raw.post_hint.getD "link"
           url := some (raw.url.getD "")
           thumbnail := raw.thumbnail }

/-- `RedditParser.parse_post` (parser.py:99-157).  `include_deleted` is
the parser's construction flag; `now` models `datetime.utcnow()`.  The
`edited` field models Python truthiness: absent/false/0.0 are falsy. -/
def parse_post (include_deleted : Bool) (now : Nat) (raw : RawPost) : Option Post :=
  if !raw.wellFormed then none  -- parser.py:155-157: exception → log and return None
  else
    let author := raw.author.getD "[deleted]"
    let selftext := raw.selftext.getD ""
    if is_deleted_check author (some selftext) && !include_deleted then none
    else
      let is_edited := match raw.edited with
        | some t => t != 0
        | none => false
      let edited_at := match raw.edited with
        | some t => if t != 0 then parse_timestamp (some t) else none
        | none => none
      some
        { post_id := raw.id.getD ""
          permalink := raw.permalink.getD ""
          url := raw.url.getD ""
          title := raw.title.getD ""
          selftext := selftext
          selftext_html := raw.selftext_html
          author := author
          author_is_deleted := is_deleted_check author none
          subreddit := raw.subreddit.getD ""
          subreddit_id := raw.subreddit_id.getD ""
          score := raw.score.getD 0
          upvote_ratio := raw.upvote_ratio.getD 0
          num_comments := raw.num_comments.getD 0
          gilded := raw.gilded.getD 0
          is_self := raw.is_self.getD true
          is_video := raw.is_video.getD false
          is_gallery := raw.is_gallery.getD false
          media := parse_media raw
          link_flair_text := raw.link_flair_text
          link_flair_css_class := raw.link_flair_css_class
          is_edited := is_edited
          edited_at := edited_at
          is_deleted := is_deleted_check author none
          is_removed := author == "[removed]"
          stickied := raw.stickied.getD false
          locked := raw.locked.getD false
          spoiler := raw.spoiler.getD false
          nsfw := raw.over_18.getD false
          created_utc := (parse_timestamp raw.created_utc).getD now
          fetched_at := now
          last_updated := now
          content_hash := compute_content_hash
            ((raw.title.getD "") ++ ":" ++ selftext) (raw.score.getD 0) }

/-- One child of a listing payload (parser.py:240-242): its kind tag and
its `"data"` object (`{}` when absent). -/
structure RawListingChild where
  kind : Option String := none
  data : Option RawPost := none
deriving DecidableEq, Repr

/-- A listing payload as read by `parse_post_listing` (parser.py:236-238):
`response_data["data"]` flattened to its `after` cursor and `children`. -/
structure RawListing where
  after : Option String := none
  children : List RawListingChild := []
deriving DecidableEq, Repr

/-- `RedditParser.parse_post_listing` (parser.py:228-251): keep only
`t3` children, parse each via `parse_post` dropping failures, and return
the posts together with the after-token verbatim. -/
def parse_post_listing (include_deleted : Bool) (now : Nat) (resp : RawListing) :
    List Post × Option String :=
  (resp.children.filterMap fun child =>
    if child.kind == some "t3" then
      parse_post include_deleted now (child.data.getD emptyRawPost)
    else none,
   resp.after)

/-- The scalar fields of a raw comment payload (the `"data"` object of a
`t1` tree child); the recursive `replies` listing lives on the tree node
`RChild.t1`.  `wellFormed := false` models a payload whose dynamic shape
makes `parse_comment`'s body raise (caught at parser.py:224-226). -/
structure RawCommentCore where
  kind : Option String := none
  id : Option String := none
  author : Option String := none
  body : Option String := none
  body_html : Option String := none
  parent_id : Option String := none
  score : Option Int := none
  controversiality : Option Int := none
  gilded : Option Int := none
  is_submitter : Option Bool := none
  edited : Option Nat := none
  stickied : Option Bool := none
  created_utc : Option Nat := none
  wellFormed : Bool := true
deriving DecidableEq, Repr

/-- One child node of a comment listing (parser.py:300-315): a `more`
truncation stub, a `t1` comment with its optional nested reply listing
(`hasReplies` models `isinstance(replies, dict)`; when false the reply
list is the empty `safe_get` default), or a child of any other kind. -/
inductive RChild where
  | more : RChild
  | t1 (data : RawCommentCore) (hasReplies : Bool) (replies : List RChild) : RChild
  | otherKind (kind : String) : RChild

/-- `RedditParser.parse_comment` (parser.py:159-226).  `hasReplies` and
`replies` are the comment's own reply listing, read for `reply_count`
(parser.py:189-193). -/
def parse_comment (include_deleted : Bool) (now : Nat) (data : RawCommentCore)
    (hasReplies : Bool) (replies : List RChild)
    (post_id subreddit : String) (depth : Nat) : Option Comment :=
  if !data.wellFormed then none  -- parser.py:224-226: exception → log and return None
  else if data.kind == some "more" then none
  else
    let author := data.author.getD "[deleted]"
    let body := data.body.getD ""
    if is_deleted_check author (some body) && !include_deleted then none
    else
      let parent_raw := data.parent_id.getD ""
      let parent_id :=
        if parent_raw.startsWith "t1_" then parent_raw.drop 3
        else if parent_raw.startsWith "t3_" then parent_raw.drop 3
        else parent_raw
      let is_edited := match data.edited with
        | some t => t != 0
        | none => false
      let edited_at := match data.edited with
        | some t => if t != 0 then parse_timestamp (some t) else none
        | none => none
      let reply_count := if hasReplies then replies.length else 0
      some
        { comment_id := data.id.getD ""
          post_id := post_id
          parent_id := parent_id
          body := body
          body_html := data.body_html
          author := author
          author_is_deleted := is_deleted_check author none
          score := data.score.getD 0
          is_controversial := data.controversiality.getD 0 > 0
          gilded := data.gilded.getD 0
          is_submitter := data.is_submitter.getD false
          is_edited := is_edited
          edited_at := edited_at
          is_deleted := is_deleted_check author (some body)
          is_removed := author == "[removed]" || body == "[removed]"
          stickied := data.stickied.getD false
          depth := depth
          reply_count := reply_count
          created_utc := (parse_timestamp data.created_utc).getD now
          fetched_at := now
          last_updated := now
          content_hash := compute_content_hash body (data.score.getD 0)
          subreddit := subreddit }

/-- The per-level walk of `RedditParser._parse_comment_tree`
(parser.py:300-322): skip `more` stubs and unknown kinds; parse each `t1`
child at the current depth; when the parse succeeds and the child has a
dict reply listing, descend into it at `depth + 1`.  The recursive call
to `_parse_comment_tree` at parser.py:316-319 is inlined here: its entry
guard `current_depth > max_depth` (parser.py:297) becomes the explicit
test before the recursive call. -/
def parseChildren (include_deleted : Bool) (now : Nat) (post_id subreddit : String)
    (max_depth : Nat) : List RChild → Nat → List Comment
  | [], _ => []
  | child :: rest, cur =>
    (match child with
     | .more => []
     | .otherKind _ => []
     | .t1 data hasReplies replies =>
       match parse_comment include_deleted now data hasReplies replies post_id subreddit cur with
       | none => []
       | some c =>
         c :: (if hasReplies then
                 (if cur + 1 > max_depth then []
                  else parseChildren include_deleted now post_id subreddit max_depth replies (cur + 1))
               else []))
    ++ parseChildren include_deleted now post_id subreddit max_depth rest cur

/-- `RedditParser._parse_comment_tree` (parser.py:287-322): return no
comments once the current depth exceeds the maximum, otherwise walk the
children at this level. -/
def parse_comment_tree (include_deleted : Bool) (now : Nat) (children : List RChild)
    (post_id subreddit : String) (current_depth max_depth : Nat) : List Comment :=
  if current_depth > max_depth then []
  else parseChildren include_deleted now post_id subreddit max_depth children current_depth

/-! ## HTTP transport (src/crawler/http_client.py)

One attempt of the try block at http_client.py:172-203 either raises a
Python exception before a response value is produced (modelled by
`Attempt.exn`) or produces an `HttpResponse` value via `_parse_response`
(modelled by `Attempt.resp`).  The outcome of attempt number `i`
(zero-based, equal to the `retry_count` of that call) is supplied by an
oracle `Nat → Attempt`.  The rate-limiter waits, `time.sleep` calls and
the statistics dictionary have no effect on the returned value and are
not modelled. -/

/-- http_client.py `HttpResponse` (headers carried only as the optional
`retry-after` value, the single header the retry logic reads). -/
structure HttpResponse where
  status_code : Int
  retry_after : Option String := none
  body : String := ""
  json_ok : Bool := false
  error : Option String := none
deriving DecidableEq, Repr

/-- `HttpResponse.is_success` (http_client.py:30-32). -/
def HttpResponse.is_success (r : HttpResponse) : Bool :=
  200 ≤ r.status_code && r.status_code < 300

/-- `HttpResponse.is_rate_limited` (http_client.py:34-36). -/
def HttpResponse.is_rate_limited (r : HttpResponse) : Bool :=
  r.status_code == 429

/-- The outcome of one dispatch attempt inside the try block. -/
inductive Attempt where
  | exn (msg : String)
  | resp (r : HttpResponse)
deriving DecidableEq, Repr

/-- `RedditHttpClient.request` (http_client.py:145-220), recursing on the
retry budget.  A 429 response retries while `retry_count < max_retries`
(http_client.py:183-189); otherwise it falls through to the 5xx check.
A 5xx response retries within the same bound (http_client.py:191-195);
any other response is returned as is (http_client.py:197-203).  An
exception retries within the bound and yields a terminal response with
`status_code = 0` and `error` set once the budget is exhausted
(http_client.py:205-220). -/
def request (max_retries : Nat) (oracle : Nat → Attempt) (retry_count : Nat) :
    HttpResponse :=
  match oracle retry_count with
  | .exn msg =>
    if h : retry_count < max_retries then
      request max_retries oracle (retry_count + 1)
    else
      { status_code := 0, body := "", error := some msg }
  | .resp result =>
    if h : result.is_rate_limited ∧ retry_count < max_retries then
      request max_retries oracle (retry_count + 1)
    else if h : 500 ≤ result.status_code ∧ retry_count < max_retries then
      request max_retries oracle (retry_count + 1)
    else
      result
termination_by max_retries - retry_count
decreasing_by all_goals omega

/-- A failing attempt in the sense of the retry policy: a raised
network/timeout exception, a 429, or a 5xx status. -/
def failingAttempt : Attempt → Prop
  | .exn _ => True
  | .resp r => r.status_code = 429 ∨ 500 ≤ r.status_code

instance : DecidablePred failingAttempt := fun a =>
  match a with
  | .exn _ => isTrue trivial
  | .resp _ => inferInstanceAs (Decidable (_ ∨ _))

/-- The terminal response the exhausted-budget call returns for a given
final attempt outcome. -/
def terminalOf : Attempt → HttpResponse
  | .exn msg => { status_code := 0, body := "", error := some msg }
  | .resp r => r

/-- `RedditHttpClient.get_json` (http_client.py:230-238): the error
string handed to the crawler when the response is not a success carrying
parsed JSON. -/
def get_json_error (r : HttpResponse) : Option String :=
  if r.is_success && r.json_ok then none
  else some (match r.error with
    | some e => e
    | none => "HTTP " ++ toString r.status_code ++ ": " ++ r.body.take 200)

/-! ## Crawler orchestration (src/crawler/crawler.py)

The composite of `http_client.get_json` on the listing URL built at
crawler.py:120 and `parser.parse_post_listing` is modelled by a server
oracle indexed by request number: `FetchResponse.err` models a
`(None, error)` result of `get_json`, `FetchResponse.ok` the raw listing
it returned.  The page contents come from the oracle, so the `limit` and
`after` URL parameters, which only influence what the remote end serves,
do not appear in the loop model. -/

/-- The outcome of one listing-page request made by `fetch_posts`. -/
inductive FetchResponse where
  | err (msg : String)
  | ok (listing : RawListing)

/-- The loop of `RedditCrawler.fetch_posts` (crawler.py:111-146),
returning the yielded posts in order together with the number of listing
requests issued.  `i` is the request number, `fetched` the running
`posts_fetched` count.  Termination of the source loop is the fact this
definition is total: each iteration either breaks (error page, empty
page, missing cursor) or yields at least one post, and `posts_fetched`
is bounded by `max_posts`. -/
def fetch_posts_go (include_deleted : Bool) (now : Nat) (server : Nat → FetchResponse)
    (max_posts : Nat) (i fetched : Nat) : List Post × Nat :=
  if h : fetched < max_posts then
    match server i with
    | .err _ => ([], 1)  -- crawler.py:125-127: error → log and break
    | .ok listing =>
      let parsed := parse_post_listing include_deleted now listing
      if hp : parsed.1 = [] then ([], 1)  -- crawler.py:132-134: no posts → break
      else
        let yielded := parsed.1.take (max_posts - fetched)  -- crawler.py:136-140
        if pyTruthyStr parsed.2 then
          let rest := fetch_posts_go include_deleted now server max_posts (i + 1)
            (fetched + (parsed.1.take (max_posts - fetched)).length)
          (yielded ++ rest.1, 1 + rest.2)
        else
          (yielded, 1)  -- crawler.py:142-144: no after token → break
  else ([], 0)
termination_by max_posts - fetched
decreasing_by
  have h1 : 0 < (parse_post_listing include_deleted now listing).1.length :=
    List.length_pos.mpr hp
  simp only [List.length_take, inf_eq_min]
  omega

/-- `RedditCrawler.fetch_posts` (crawler.py:98-148) with its argument
defaulting (crawler.py:105-107): `subreddit`, `max_posts` and `sort_by`
fall back to the configuration under Python `or`.  The effective sort
only selects the listing URL, which the server oracle abstracts; it is
exposed through `fetch_posts_sort` below. -/
def fetch_posts (cfg : CrawlerConfig) (server : Nat → FetchResponse) (now : Nat)
    (max_posts_arg : Option Nat) : List Post × Nat :=
  fetch_posts_go cfg.include_deleted now server (pyOrNat max_posts_arg cfg.max_posts) 0 0

/-- The sort mode `fetch_posts` uses for its listing URLs
(crawler.py:107: `sort_by = sort_by or self.config.sort_by`,
used at crawler.py:120). -/
def fetch_posts_sort (cfg : CrawlerConfig) (sort_by_arg : Option String) : String :=
  pyOrStr sort_by_arg cfg.sort_by

/-- The sort mode used by `RedditCrawler.crawl`: its call
`self.fetch_posts(subreddit, max_posts)` (crawler.py:220) passes no sort
argument, and `crawl` itself accepts none. -/
def crawl_sort_used (cfg : CrawlerConfig) : String :=
  fetch_posts_sort cfg none

/-- The sort mode used by `RedditCrawler.crawl_incremental`
(crawler.py:299-312): it forwards to `crawl(subreddit, max_posts,
fetch_comments=True, resume=False)` without any sort mode, so the sort
is whatever `crawl` uses. -/
def crawl_incremental_sort_used (cfg : CrawlerConfig) : String :=
  crawl_sort_used cfg

/-- The keyword arguments `crawl_incremental` passes to `crawl`
(crawler.py:307-312). -/
structure CrawlCallArgs where
  fetch_comments : Bool
  resume : Bool
deriving DecidableEq, Repr

/-- crawler.py:307-312: `crawl_incremental` fixes
`fetch_comments=True, resume=False`. -/
def crawl_incremental_call_args : CrawlCallArgs :=
  { fetch_comments := true, resume := false }

/-- The comment-upsert loop inside `crawl` (crawler.py:232-237): upsert
each comment in order, counting every processed comment and recording an
error entry for each `"error"` action.  `cfault` assigns each comment id
its database fault, if any. -/
def upsertCommentList (cfault : String → Option PgErr) (now : Nat) :
    List Comment → DBState → Nat → List String → DBState × Nat × List String
  | [], st, cp, errs => (st, cp, errs)
  | c :: rest, st, cp, errs =>
    let r := upsert_comment (cfault c.comment_id) st c now
    let errs1 := if r.2.2 == "error" then
        errs ++ ["Failed to upsert comment " ++ c.comment_id]
      else errs
    upsertCommentList cfault now rest r.1 (cp + 1) errs1

/-- The post loop of `RedditCrawler.crawl` (crawler.py:219-251).
Arguments: the posts yielded by `fetch_posts`, the database state, the
in-memory `crawl_state` object, the running `posts_processed` /
`comments_processed` counts and the error list.  Per post: upsert; on
action `"error"` record an error entry and `continue` (skipping both the
comment fetch and the checkpoint, crawler.py:224-226); otherwise fetch
and upsert comments when both `fetch_comments` and
`config.fetch_all_comments` hold (crawler.py:228-241); every 10 processed
posts persist a checkpoint `CrawlState` (crawler.py:243-250). -/
def crawlLoop (cfg : CrawlerConfig) (fetch_comments : Bool)
    (commentsFor : Post → List Comment)
    (pfault cfault : String → Option PgErr) (now : Nat) :
    List Post → DBState → CrawlState → Nat → Nat → List String →
    DBState × CrawlState × Nat × Nat × List String
  | [], st, cs, pp, cp, errs => (st, cs, pp, cp, errs)
  | p :: rest, st, cs, pp, cp, errs =>
    let r := upsert_post (pfault p.post_id) st p now
    let pp1 := pp + 1
    if r.2.2 == "error" then
      crawlLoop cfg fetch_comments commentsFor pfault cfault now rest r.1 cs pp1 cp
        (errs ++ ["Failed to upsert post " ++ p.post_id])
    else
      let afterComments :=
        if fetch_comments && cfg.fetch_all_comments then
          upsertCommentList cfault now (commentsFor p) r.1 cp errs
        else (r.1, cp, errs)
      let st2 := afterComments.1
      let cp1 := afterComments.2.1
      let errs1 := afterComments.2.2
      if pp1 % 10 == 0 then
        let cs1 := { cs with posts_crawled := pp1, comments_crawled := cp1
                             last_post_id := some p.post_id, last_activity := now }
        crawlLoop cfg fetch_comments commentsFor pfault cfault now rest
          (save_crawl_state st2 cs1) cs1 pp1 cp1 errs1
      else
        crawlLoop cfg fetch_comments commentsFor pfault cfault now rest st2 cs pp1 cp1 errs1

/-- The summary `crawl` returns (crawler.py:16-28, counts relevant to the
modelled behaviour; the inserted/updated tallies live in the
observability statistics, which no claim references). -/
structure CrawlResultM where
  subreddit : String
  posts_fetched : Nat
  comments_fetched : Nat
  errors : List String
deriving DecidableEq, Repr

/-- `RedditCrawler.crawl` (crawler.py:172-297) on an established database
connection: resolve the argument defaults (crawler.py:179-180), load the
prior `CrawlState` when resuming (crawler.py:205-212), run `fetch_posts`
through the post loop, then persist the final completed `CrawlState`
(crawler.py:252-256) and return the aggregated result.  `commentsFor`
models `fetch_comments(post)` (one comment-page request + parse per
post); the interrupt handlers (crawler.py:258-268) concern signals
outside the model. -/
def crawl (cfg : CrawlerConfig) (subreddit_arg : Option String)
    (max_posts_arg : Option Nat) (fetch_comments resume : Bool)
    (server : Nat → FetchResponse) (commentsFor : Post → List Comment)
    (pfault cfault : String → Option PgErr) (now : Nat) (st : DBState) :
    CrawlResultM × DBState :=
  let subreddit := pyOrStr subreddit_arg cfg.subreddit
  let cs0 :=
    match (if resume then get_crawl_state st subreddit else none) with
    | some existing => existing
    | none => { subreddit := subreddit, started_at := now, last_activity := now }
  let posts := (fetch_posts cfg server now max_posts_arg).1
  let looped := crawlLoop cfg fetch_comments commentsFor pfault cfault now posts st cs0 0 0 []
  let st1 := looped.1
  let cs1 := looped.2.1
  let pp := looped.2.2.1
  let cp := looped.2.2.2.1
  let errs := looped.2.2.2.2
  let csF := { cs1 with is_complete := true, posts_crawled := pp, comments_crawled := cp }
  ({ subreddit := subreddit, posts_fetched := pp, comments_fetched := cp, errors := errs },
   save_crawl_state st1 csF)

/-- `RedditCrawler.crawl_incremental` (crawler.py:299-312): forwards to
`crawl` with `fetch_comments=True` and `resume=False` and no sort mode
of its own. -/
def crawl_incremental (cfg : CrawlerConfig) (subreddit_arg : Option String)
    (max_posts : Nat) (server : Nat → FetchResponse)
    (commentsFor : Post → List Comment) (pfault cfault : String → Option PgErr)
    (now : Nat) (st : DBState) : CrawlResultM × DBState :=
  crawl cfg subreddit_arg (some max_posts) true false server commentsFor pfault cfault now st

/-! ## Concrete fixtures

Small concrete records used to evaluate the verified statements on
explicit inputs. -/

/-- A sample parsed post. -/
def pSample : Post :=
  { post_id := "p1", permalink := "/r/x/p1", url := "https://x/p1", title := "hello"
    selftext := "body one", score := 3, created_utc := 100, content_hash := "h1" }

/-- A later fetch of the same post: different content hash, newer values. -/
def pSample2 : Post :=
  { pSample with selftext := "body two", score := 4, created_utc := 200
                 content_hash := "h2" }

/-- A sample parsed comment. -/
def cSample : Comment :=
  { comment_id := "c1", post_id := "p1", parent_id := "p1", body := "reply one"
    score := 1, created_utc := 100, content_hash := "k1" }

/-- A later fetch of the same comment: different content hash. -/
def cSample2 : Comment :=
  { cSample with body := "reply two", score := 2, created_utc := 200
                 content_hash := "k2" }

/-- A raw post payload that parses successfully (author not deleted). -/
def goodRaw : RawPost := { author := some "alice" }

/-- A `t3` listing child wrapping `goodRaw`. -/
def goodChild : RawListingChild := { kind := some "t3", data := some goodRaw }

/-- The post `goodRaw` parses to (with `include_deleted = false`, `now = 0`). -/
def goodParsed : Post :=
  (parse_post false 0 goodRaw).getD { post_id := "", permalink := "", url := "", title := "" }

/-- First listing page of the pagination scenario: 100 posts, cursor present. -/
def pageW1 : RawListing := { after := some "t3_a", children := List.replicate 100 goodChild }

/-- Second listing page: 100 posts, cursor present. -/
def pageW2 : RawListing := { after := some "t3_b", children := List.replicate 100 goodChild }

/-- Third listing page: 37 posts, no cursor. -/
def pageW3 : RawListing := { after := none, children := List.replicate 37 goodChild }

/-- Server oracle serving the three pages in order. -/
def serverW : Nat → FetchResponse := fun i =>
  if i = 0 then .ok pageW1 else if i = 1 then .ok pageW2 else .ok pageW3

/-- A two-level nested comment tree. -/
def treeW : List RChild :=
  [RChild.t1 { author := some "ann", body := some "root" } true
    [RChild.t1 { author := some "bob", body := some "child" } true
      [RChild.t1 { author := some "cay", body := some "grandchild" } false []]]]

/-- The root comment of `treeW` as parsed at depth 0. -/
def cW : Comment :=
  (parse_comment false 0 { author := some "ann", body := some "root" } true
      [RChild.t1 { author := some "bob", body := some "child" } true
        [RChild.t1 { author := some "cay", body := some "grandchild" } false []]]
      "p" "s" 0).getD
    { comment_id := "", post_id := "", parent_id := "", body := "" }

/-- A raw gallery post payload with an HTML-escaped ampersand in the
resolved url. -/
def rawGalleryW : RawPost :=
  { is_self := some false, is_video := some false, is_gallery := some true
    gallery_items := [{ media_id := some "m1" }, { media_id := some "m2" }]
    media_metadata := [("m1", { s := some { u := some "https://g/1?a=1&amp;b=2" } })]
    thumbnail := some "thumb" }

/-- A raw post payload whose dynamic shape makes `parse_post` raise. -/
def badRaw : RawPost := { wellFormed := false }

/-- A raw comment payload whose dynamic shape makes `parse_comment` raise. -/
def badCommentData : RawCommentCore := { wellFormed := false }

/-! ## General lemmas about the store model -/

theorem length_updateBy (p : α → Bool) (f : α → α) (xs : List α) :
    (updateBy p f xs).length = xs.length := by
  simp [updateBy]

theorem mem_updateBy_of_neg (p : α → Bool) (f : α → α) {x : α} {xs : List α}
    (hx : x ∈ xs) (hp : p x = false) : x ∈ updateBy p f xs := by
  have hm : (if p x then f x else x) ∈ updateBy p f xs := List.mem_map_of_mem _ hx
  simpa [hp] using hm

theorem find?_updateBy (p : α → Bool) (f : α → α)
    (hf : ∀ x, p (f x) = p x) (xs : List α) :
    (updateBy p f xs).find? p = (xs.find? p).map f := by
  induction xs with
  | nil => rfl
  | cons x xs ih =>
    rcases hx : p x with _ | _
    · have hfx : p (f x) = false := by rw [hf, hx]
      calc (updateBy p f (x :: xs)).find? p
          = (x :: updateBy p f xs).find? p := by simp [updateBy, hx]
        _ = (updateBy p f xs).find? p := List.find?_cons_of_neg _ (by simp [hx])
        _ = (xs.find? p).map f := ih
        _ = ((x :: xs).find? p).map f := by rw [List.find?_cons_of_neg _ (by simp [hx])]
    · have hfx : p (f x) = true := by rw [hf, hx]
      calc (updateBy p f (x :: xs)).find? p
          = (f x :: updateBy p f xs).find? p := by simp [updateBy, hx]
        _ = some (f x) := List.find?_cons_of_pos _ hfx
        _ = ((x :: xs).find? p).map f := by rw [List.find?_cons_of_pos _ hx]; rfl

/-! ## Branch characterizations of the upserts -/

theorem upsert_post_insert_eq (st : DBState) (p : Post) (now : Nat)
    (hfind : st.posts.find? (fun r => r.post_id == p.post_id) = none) :
    upsert_post none st p now =
      ({ st with posts := st.posts ++ [insertPostRow p now] }, true, "inserted") := by
  simp [upsert_post, hfind]

theorem upsert_post_unchanged_eq (st : DBState) (p : Post) (now : Nat) (row : PostRow)
    (hfind : st.posts.find? (fun r => r.post_id == p.post_id) = some row)
    (hhash : row.content_hash = p.content_hash) :
    upsert_post none st p now =
      ({ st with posts := (updateBy (fun r => r.post_id == p.post_id)
          (fun r => { r with last_updated := now }) st.posts) }, false, "unchanged") := by
  simp [upsert_post, hfind, hhash]

theorem upsert_post_updated_eq (st : DBState) (p : Post) (now : Nat) (row : PostRow)
    (hfind : st.posts.find? (fun r => r.post_id == p.post_id) = some row)
    (hhash : row.content_hash ≠ p.content_hash) :
    upsert_post none st p now =
      ({ logChange st "post" p.post_id "content_updated"
           (.postSnap row.content_hash row.score row.num_comments (row.selftext.take 500))
           (.postSnap p.content_hash p.score p.num_comments (p.selftext.take 500)) now
         with posts := (updateBy (fun r => r.post_id == p.post_id)
           (fun r => postUpdateRow r p now) st.posts) }, true, "updated") := by
  have hbne : (row.content_hash != p.content_hash) = true := by simpa using hhash
  simp [upsert_post, hfind, hbne, logChange]

theorem upsert_comment_insert_eq (st : DBState) (c : Comment) (now : Nat)
    (hfind : st.comments.find? (fun r => r.comment_id == c.comment_id) = none) :
    upsert_comment none st c now =
      ({ st with comments := st.comments ++ [insertCommentRow c now],
                 posts := registerCommentOnPost st.posts c now }, true, "inserted") := by
  simp [upsert_comment, hfind]

theorem upsert_comment_unchanged_eq (st : DBState) (c : Comment) (now : Nat)
    (row : CommentRow)
    (hfind : st.comments.find? (fun r => r.comment_id == c.comment_id) = some row)
    (hhash : row.content_hash = c.content_hash) :
    upsert_comment none st c now =
      ({ st with comments := (updateBy (fun r => r.comment_id == c.comment_id)
          (fun r => { r with last_updated := now }) st.comments) }, false, "unchanged") := by
  simp [upsert_comment, hfind, hhash]

theorem upsert_comment_updated_eq (st : DBState) (c : Comment) (now : Nat)
    (row : CommentRow)
    (hfind : st.comments.find? (fun r => r.comment_id == c.comment_id) = some row)
    (hhash : row.content_hash ≠ c.content_hash) :
    upsert_comment none st c now =
      ({ logChange st "comment" c.comment_id "content_updated"
           (.commentSnap row.content_hash row.score (row.body.take 500))
           (.commentSnap c.content_hash c.score (c.body.take 500)) now
         with comments := (updateBy (fun r => r.comment_id == c.comment_id)
           (fun r => commentUpdateRow r c now) st.comments) }, true, "updated") := by
  have hbne : (row.content_hash != c.content_hash) = true := by simpa using hhash
  simp [upsert_comment, hfind, hbne, logChange]

/-! ## Claim theorems -/

/-- Claim C1: for a Post (resp. Comment) already stored with an identical
`content_hash`, upserting again modifies only that record's
`last_updated`, appends no change-log entry, leaves every other table and
record untouched, and returns `(changed = false, action = "unchanged")`;
consequently upserting the same record twice in succession reports
`"inserted"` then `"unchanged"`. -/
theorem c1_unchanged_idempotent :
    (∀ (st : DBState) (p : Post) (now : Nat) (row : PostRow),
      st.posts.find? (fun r => r.post_id == p.post_id) = some row →
      row.content_hash = p.content_hash →
      (upsert_post none st p now).2 = (false, "unchanged") ∧
      (upsert_post none st p now).1.change_log = st.change_log ∧
      (upsert_post none st p now).1.comments = st.comments ∧
      (upsert_post none st p now).1.crawl_states = st.crawl_states ∧
      (upsert_post none st p now).1.posts.find? (fun r => r.post_id == p.post_id) =
        some { row with last_updated := now } ∧
      (upsert_post none st p now).1.posts.length = st.posts.length ∧
      (∀ r ∈ st.posts, (r.post_id == p.post_id) = false →
        r ∈ (upsert_post none st p now).1.posts)) ∧
    (∀ (st : DBState) (c : Comment) (now : Nat) (row : CommentRow),
      st.comments.find? (fun r => r.comment_id == c.comment_id) = some row →
      row.content_hash = c.content_hash →
      (upsert_comment none st c now).2 = (false, "unchanged") ∧
      (upsert_comment none st c now).1.change_log = st.change_log ∧
      (upsert_comment none st c now).1.posts = st.posts ∧
      (upsert_comment none st c now).1.crawl_states = st.crawl_states ∧
      (upsert_comment none st c now).1.comments.find? (fun r => r.comment_id == c.comment_id) =
        some { row with last_updated := now } ∧
      (upsert_comment none st c now).1.comments.length = st.comments.length ∧
      (∀ r ∈ st.comments, (r.comment_id == c.comment_id) = false →
        r ∈ (upsert_comment none st c now).1.comments)) ∧
    (∀ (st : DBState) (p : Post) (now1 now2 : Nat),
      st.posts.find? (fun r => r.post_id == p.post_id) = none →
      (upsert_post none st p now1).2.2 = "inserted" ∧
      (upsert_post none (upsert_post none st p now1).1 p now2).2.2 = "unchanged") ∧
    (∀ (st : DBState) (c : Comment) (now1 now2 : Nat),
      st.comments.find? (fun r => r.comment_id == c.comment_id) = none →
      (upsert_comment none st c now1).2.2 = "inserted" ∧
      (upsert_comment none (upsert_comment none st c now1).1 c now2).2.2 = "unchanged") := by
  refine ⟨?_, ?_, ?_, ?_⟩
  · intro st p now row hfind hhash
    have hval := upsert_post_unchanged_eq st p now row hfind hhash
    have hfu := find?_updateBy (fun r => r.post_id == p.post_id)
      (fun r => { r with last_updated := now }) (fun r => rfl) st.posts
    rw [hfind] at hfu
    refine ⟨by rw [hval], by rw [hval], by rw [hval], by rw [hval], ?_, ?_, ?_⟩
    · rw [hval]; simpa using hfu
    · rw [hval]; exact length_updateBy _ _ _
    · intro r hr hneq
      rw [hval]
      exact mem_updateBy_of_neg _ _ hr hneq
  · intro st c now row hfind hhash
    have hval := upsert_comment_unchanged_eq st c now row hfind hhash
    have hfu := find?_updateBy (fun r => r.comment_id == c.comment_id)
      (fun r => { r with last_updated := now }) (fun r => rfl) st.comments
    rw [hfind] at hfu
    refine ⟨by rw [hval], by rw [hval], by rw [hval], by rw [hval], ?_, ?_, ?_⟩
    · rw [hval]; simpa using hfu
    · rw [hval]; exact length_updateBy _ _ _
    · intro r hr hneq
      rw [hval]
      exact mem_updateBy_of_neg _ _ hr hneq
  · intro st p now1 now2 hfind
    have h1 := upsert_post_insert_eq st p now1 hfind
    have hfind2 : (st.posts ++ [insertPostRow p now1]).find?
        (fun r => r.post_id == p.post_id) = some (insertPostRow p now1) := by
      rw [List.find?_append, hfind]
      simp [insertPostRow]
    refine ⟨by rw [h1], ?_⟩
    rw [h1]
    rw [upsert_post_unchanged_eq _ p now2 (insertPostRow p now1) hfind2 rfl]
  · intro st c now1 now2 hfind
    have h1 := upsert_comment_insert_eq st c now1 hfind
    have hfind2 : (st.comments ++ [insertCommentRow c now1]).find?
        (fun r => r.comment_id == c.comment_id) = some (insertCommentRow c now1) := by
      rw [List.find?_append, hfind]
      simp [insertCommentRow]
    refine ⟨by rw [h1], ?_⟩
    rw [h1]
    rw [upsert_comment_unchanged_eq _ c now2 (insertCommentRow c now1) hfind2 rfl]

set_option maxRecDepth 2000 in
/-- Witness for C1 at concrete inputs: insert `pSample` into the empty
store, upsert it again, and likewise for `cSample`. -/
theorem c1_unchanged_idempotent_witness :
    ((upsert_post none {} pSample 1).2.2 = "inserted" ∧
      (upsert_post none (upsert_post none {} pSample 1).1 pSample 2).2.2 = "unchanged") ∧
    ((upsert_comment none {} cSample 1).2.2 = "inserted" ∧
      (upsert_comment none (upsert_comment none {} cSample 1).1 cSample 2).2.2 = "unchanged") ∧
    (upsert_post none (upsert_post none {} pSample 1).1 pSample 2).1.change_log = [] := by
  have hp := c1_unchanged_idempotent.2.2.1 ({} : DBState) pSample 1 2 (by decide)
  have hc := c1_unchanged_idempotent.2.2.2 ({} : DBState) cSample 1 2 (by decide)
  have hlog := (c1_unchanged_idempotent.1 (upsert_post none {} pSample 1).1 pSample 2
    (insertPostRow pSample 1) (by decide) (by decide)).2.1
  exact ⟨hp, hc, by rw [hlog]; decide⟩

/-- Claim C2 (amended): upserting a stored post (resp. comment) whose
`content_hash` differs appends exactly one change-log entry capturing the
old and new key fields with the text truncated to 500 characters, reports
`(true, "updated")`, and overwrites the stored record with the newer
values for every column in the update statement — equivalently, the
updated row equals a fresh insert of the newer record except that
`first_seen`, `created_utc` and `fetched_at` (and, for posts, the
comment-tracking columns; for comments, the unused `upvote_ratio`
column) keep their stored values. -/
theorem c2_update_logs_change :
    (∀ (st : DBState) (p : Post) (now : Nat) (row : PostRow),
      st.posts.find? (fun r => r.post_id == p.post_id) = some row →
      row.content_hash ≠ p.content_hash →
      (upsert_post none st p now).2 = (true, "updated") ∧
      (upsert_post none st p now).1.change_log = st.change_log ++
        [{ content_type := "post", content_id := p.post_id
           change_type := "content_updated"
           old_value := .postSnap row.content_hash row.score row.num_comments
             (row.selftext.take 500)
           new_value := .postSnap p.content_hash p.score p.num_comments
             (p.selftext.take 500)
           changed_at := now }] ∧
      (upsert_post none st p now).1.posts.find? (fun r => r.post_id == p.post_id) =
        some (postUpdateRow row p now) ∧
      postUpdateRow row p now =
        { insertPostRow p now with
            post_id := row.post_id, created_utc := row.created_utc
            fetched_at := row.fetched_at, first_seen := row.first_seen
            comment_ids := row.comment_ids
            comments_fetched_at := row.comments_fetched_at }) ∧
    (∀ (st : DBState) (c : Comment) (now : Nat) (row : CommentRow),
      st.comments.find? (fun r => r.comment_id == c.comment_id) = some row →
      row.content_hash ≠ c.content_hash →
      (upsert_comment none st c now).2 = (true, "updated") ∧
      (upsert_comment none st c now).1.change_log = st.change_log ++
        [{ content_type := "comment", content_id := c.comment_id
           change_type := "content_updated"
           old_value := .commentSnap row.content_hash row.score (row.body.take 500)
           new_value := .commentSnap c.content_hash c.score (c.body.take 500)
           changed_at := now }] ∧
      (upsert_comment none st c now).1.comments.find? (fun r => r.comment_id == c.comment_id) =
        some (commentUpdateRow row c now) ∧
      commentUpdateRow row c now =
        { insertCommentRow c now with
            comment_id := row.comment_id, created_utc := row.created_utc
            fetched_at := row.fetched_at, first_seen := row.first_seen
            upvote_ratio := row.upvote_ratio }) := by
  constructor
  · intro st p now row hfind hhash
    have hval := upsert_post_updated_eq st p now row hfind hhash
    have hfu := find?_updateBy (fun r => r.post_id == p.post_id)
      (fun r => postUpdateRow r p now) (fun r => rfl) st.posts
    rw [hfind] at hfu
    refine ⟨by rw [hval], ?_, by rw [hval]; simpa using hfu, rfl⟩
    rw [hval]
    simp [logChange]
  · intro st c now row hfind hhash
    have hval := upsert_comment_updated_eq st c now row hfind hhash
    have hfu := find?_updateBy (fun r => r.comment_id == c.comment_id)
      (fun r => commentUpdateRow r c now) (fun r => rfl) st.comments
    rw [hfind] at hfu
    refine ⟨by rw [hval], ?_, by rw [hval]; simpa using hfu, rfl⟩
    rw [hval]
    simp [logChange]

set_option maxRecDepth 2000 in
/-- Claim C2 as stated is false on the code: the stored record's
`created_utc` — a non-identity field — is not overwritten with the newer
value.  Insert `pSample` (`created_utc = 100`), then upsert `pSample2`
(same id, different hash, `created_utc = 200`): the action is
`"updated"` but the stored `created_utc` remains 100. -/
theorem c2_counterexample :
    (upsert_post none (upsert_post none {} pSample 1).1 pSample2 2).2.2 = "updated" ∧
    ((upsert_post none (upsert_post none {} pSample 1).1 pSample2 2).1.posts.find?
        (fun r => r.post_id == pSample2.post_id)).map PostRow.created_utc = some 100 ∧
    pSample2.created_utc = 200 := by
  decide

set_option maxRecDepth 4000 in
/-- Witness for the amended C2 at concrete inputs. -/
theorem c2_update_logs_change_witness :
    (upsert_post none (upsert_post none {} pSample 1).1 pSample2 2).2 = (true, "updated") ∧
    (upsert_comment none (upsert_comment none {} cSample 1).1 cSample2 2).2 =
      (true, "updated") ∧
    (upsert_post none (upsert_post none {} pSample 1).1 pSample2 2).1.change_log =
      [{ content_type := "post", content_id := "p1"
         change_type := "content_updated"
         old_value := .postSnap "h1" 3 0 ("body one".take 500)
         new_value := .postSnap "h2" 4 0 ("body two".take 500)
         changed_at := 2 }] := by
  have hp := c2_update_logs_change.1 (upsert_post none {} pSample 1).1 pSample2 2
    (insertPostRow pSample 1) (by decide) (by decide)
  have hc := c2_update_logs_change.2 (upsert_comment none {} cSample 1).1 cSample2 2
    (insertCommentRow cSample 1) (by decide) (by decide)
  refine ⟨hp.1, hc.1, ?_⟩
  rw [hp.2.1]
  rfl

/-! ## Transport retry lemmas -/

/-- When every attempt up to the retry bound fails, `request` walks the
whole budget and returns the terminal outcome of the final attempt. -/
theorem request_exhausted_from (max_retries : Nat) (oracle : Nat → Attempt)
    (hfail : ∀ i, i ≤ max_retries → failingAttempt (oracle i)) :
    ∀ (k rc : Nat), max_retries - rc ≤ k → rc ≤ max_retries →
      request max_retries oracle rc = terminalOf (oracle max_retries) := by
  intro k
  induction k with
  | zero =>
    intro rc hk hrc
    have hrc' : rc = max_retries := by omega
    subst hrc'
    rw [request.eq_def]
    rcases ho : oracle rc with msg | r <;> simp [terminalOf]
  | succ k ih =>
    intro rc hk hrc
    by_cases hlt : rc < max_retries
    · have hstep : request max_retries oracle rc = request max_retries oracle (rc + 1) := by
        rw [request.eq_def]
        rcases ho : oracle rc with msg | r
        · simp [hlt]
        · have hf := hfail rc hrc
          rw [ho] at hf
          rcases hf with h429 | h5
          · simp [HttpResponse.is_rate_limited, h429, hlt]
          · have hne : r.status_code ≠ 429 := by omega
            simp [HttpResponse.is_rate_limited, hne, h5, hlt]
      rw [hstep]
      exact ih (rc + 1) (by omega) (by omega)
    · have hrc' : rc = max_retries := by omega
      subst hrc'
      rw [request.eq_def]
      rcases ho : oracle rc with msg | r <;> simp [terminalOf]

/-- Claim C3 (amended): when every attempt within the retry budget fails
— by 429, 5xx, or a raised network/timeout exception — `request` returns
the terminal outcome of the final attempt and, being a total function of
the attempt oracle, raises nothing to the caller.  The returned response
is never a success; its `error` field is set whenever the final attempt
raised an exception, while 429/5xx exhaustion returns the last failing
response itself, whose status code carries the failure. -/
theorem c3_request_exhausted_terminal (max_retries : Nat) (oracle : Nat → Attempt)
    (hfail : ∀ i, i ≤ max_retries → failingAttempt (oracle i)) :
    request max_retries oracle 0 = terminalOf (oracle max_retries) ∧
    (terminalOf (oracle max_retries)).is_success = false ∧
    (∀ msg, oracle max_retries = .exn msg →
      (request max_retries oracle 0).error = some msg) := by
  have h0 := request_exhausted_from max_retries oracle hfail max_retries 0
    (by omega) (by omega)
  refine ⟨h0, ?_, ?_⟩
  · rcases ho : oracle max_retries with msg | r
    · simp [terminalOf, HttpResponse.is_success]
    · have hf := hfail max_retries (le_refl _)
      rw [ho] at hf
      simp only [terminalOf, HttpResponse.is_success]
      rcases hf with h429 | h5
      · simp [h429]
      · have h2 : ¬ r.status_code < 300 := by omega
        simp [h2]
  · intro msg hmsg
    rw [h0, hmsg]
    rfl

/-- Claim C3 as stated is false: a retry budget of 3 exhausted by
constant 500 responses makes `request` return the last 500 response,
whose `error` field is `none` — the error field is only set on the
exception path (the crawler later derives an error string in `get_json`,
http_client.py:238). -/
theorem c3_counterexample :
    request 3 (fun _ => Attempt.resp { status_code := 500 }) 0 =
      { status_code := 500 } ∧
    ({ status_code := 500 } : HttpResponse).error = none ∧
    failingAttempt (Attempt.resp { status_code := 500 }) := by
  refine ⟨?_, rfl, Or.inr (by norm_num)⟩
  have h := request_exhausted_from 3 (fun _ => Attempt.resp { status_code := 500 })
    (fun i _ => Or.inr (by norm_num)) 3 0 (by omega) (by omega)
  simpa [terminalOf] using h

/-- Witness for C3 at a concrete oracle that always answers 429. -/
theorem c3_request_exhausted_terminal_witness :
    request 3 (fun _ => Attempt.resp { status_code := 429 }) 0 =
      { status_code := 429 } ∧
    ({ status_code := 429 } : HttpResponse).is_success = false := by
  have h := c3_request_exhausted_terminal 3 (fun _ => Attempt.resp { status_code := 429 })
    (fun i _ => Or.inl rfl)
  exact ⟨h.1, h.2.1⟩

/-! ## Pagination lemmas -/

/-- One non-final page: the whole parsed page is yielded and the loop
continues with the cursor. -/
theorem fetch_posts_go_step (incl : Bool) (now : Nat) (server : Nat → FetchResponse)
    (maxP i fetched : Nat) (L : RawListing)
    (hs : server i = .ok L)
    (hlt : fetched < maxP)
    (hne : (parse_post_listing incl now L).1 ≠ [])
    (hlen : (parse_post_listing incl now L).1.length ≤ maxP - fetched)
    (hafter : pyTruthyStr (parse_post_listing incl now L).2 = true) :
    fetch_posts_go incl now server maxP i fetched =
      ((parse_post_listing incl now L).1 ++
        (fetch_posts_go incl now server maxP (i + 1)
          (fetched + (parse_post_listing incl now L).1.length)).1,
       1 + (fetch_posts_go incl now server maxP (i + 1)
          (fetched + (parse_post_listing incl now L).1.length)).2) := by
  rw [fetch_posts_go.eq_def]
  rw [dif_pos hlt, hs]
  simp only [dif_neg hne, hafter, if_pos, List.take_of_length_le hlen]

/-- The final page: no cursor, so the page is yielded and the loop stops
after this single request. -/
theorem fetch_posts_go_last (incl : Bool) (now : Nat) (server : Nat → FetchResponse)
    (maxP i fetched : Nat) (L : RawListing)
    (hs : server i = .ok L)
    (hlt : fetched < maxP)
    (hne : (parse_post_listing incl now L).1 ≠ [])
    (hlen : (parse_post_listing incl now L).1.length ≤ maxP - fetched)
    (hafter : pyTruthyStr (parse_post_listing incl now L).2 = false) :
    fetch_posts_go incl now server maxP i fetched =
      ((parse_post_listing incl now L).1, 1) := by
  rw [fetch_posts_go.eq_def]
  rw [dif_pos hlt, hs]
  simp only [dif_neg hne, hafter, if_neg, Bool.false_eq_true, not_false_iff,
    List.take_of_length_le hlen]

/-- Claim C4: with pages of 100, 100 and 37 parsed posts, the third page
carrying no cursor, `fetch_posts` with `max_posts = 1000` yields exactly
the 237 posts of the three pages and issues exactly 3 listing requests —
no fourth page is requested.  Termination on `max_posts`, an empty page,
a missing cursor, or a transport error, without an exception, is the
totality of `fetch_posts_go` itself. -/
theorem c4_pagination_terminates (cfg : CrawlerConfig) (server : Nat → FetchResponse)
    (now : Nat) (L1 L2 L3 : RawListing)
    (hs0 : server 0 = .ok L1) (hs1 : server 1 = .ok L2) (hs2 : server 2 = .ok L3)
    (h1 : (parse_post_listing cfg.include_deleted now L1).1.length = 100)
    (ha1 : pyTruthyStr (parse_post_listing cfg.include_deleted now L1).2 = true)
    (h2 : (parse_post_listing cfg.include_deleted now L2).1.length = 100)
    (ha2 : pyTruthyStr (parse_post_listing cfg.include_deleted now L2).2 = true)
    (h3 : (parse_post_listing cfg.include_deleted now L3).1.length = 37)
    (ha3 : pyTruthyStr (parse_post_listing cfg.include_deleted now L3).2 = false) :
    fetch_posts cfg server now (some 1000) =
      ((parse_post_listing cfg.include_deleted now L1).1 ++
       ((parse_post_listing cfg.include_deleted now L2).1 ++
        (parse_post_listing cfg.include_deleted now L3).1), 3) ∧
    (fetch_posts cfg server now (some 1000)).1.length = 237 := by
  have hne1 : (parse_post_listing cfg.include_deleted now L1).1 ≠ [] := by
    intro hn; rw [hn] at h1; simp at h1
  have hne2 : (parse_post_listing cfg.include_deleted now L2).1 ≠ [] := by
    intro hn; rw [hn] at h2; simp at h2
  have hne3 : (parse_post_listing cfg.include_deleted now L3).1 ≠ [] := by
    intro hn; rw [hn] at h3; simp at h3
  have hmain : fetch_posts cfg server now (some 1000) =
      ((parse_post_listing cfg.include_deleted now L1).1 ++
       ((parse_post_listing cfg.include_deleted now L2).1 ++
        (parse_post_listing cfg.include_deleted now L3).1), 3) := by
    show fetch_posts_go cfg.include_deleted now server 1000 0 0 = _
    rw [fetch_posts_go_step cfg.include_deleted now server 1000 0 0 L1 hs0
      (by omega) hne1 (by omega) ha1]
    rw [h1]
    norm_num
    rw [fetch_posts_go_step cfg.include_deleted now server 1000 1 100 L2 hs1
      (by omega) hne2 (by omega) ha2]
    rw [h2]
    norm_num
    rw [fetch_posts_go_last cfg.include_deleted now server 1000 2 200 L3 hs2
      (by omega) hne3 (by omega) ha3]
    simp
  refine ⟨hmain, ?_⟩
  rw [hmain]
  simp [h1, h2, h3]

/-- Each replicated element mapping to `some b` makes `filterMap` a
replication of `b`. -/
theorem filterMap_replicate_some (f : α → Option β) (a : α) (b : β)
    (h : f a = some b) (n : Nat) :
    (List.replicate n a).filterMap f = List.replicate n b := by
  induction n with
  | zero => rfl
  | succ n ih => simp [List.replicate_succ, List.filterMap_cons, h, ih]

/-- The parsed posts of a listing of `n` copies of `goodChild`. -/
theorem parse_replicate_goodChild (a : Option String) (n : Nat) :
    (parse_post_listing false 0 { after := a, children := List.replicate n goodChild }).1 =
      List.replicate n goodParsed := by
  show ((List.replicate n goodChild).filterMap fun child =>
      if child.kind == some "t3" then parse_post false 0 (child.data.getD emptyRawPost)
      else none) = List.replicate n goodParsed
  refine filterMap_replicate_some _ goodChild goodParsed ?_ n
  rfl

/-- Witness for C4 on the concrete three-page server `serverW`. -/
theorem c4_pagination_terminates_witness :
    (fetch_posts default_config serverW 0 (some 1000)).1.length = 237 ∧
    (fetch_posts default_config serverW 0 (some 1000)).2 = 3 := by
  have h := c4_pagination_terminates default_config serverW 0 pageW1 pageW2 pageW3
    rfl rfl rfl
    (by rw [show default_config.include_deleted = false from rfl,
          show pageW1 = { after := some "t3_a", children := List.replicate 100 goodChild } from rfl,
          parse_replicate_goodChild]; simp)
    rfl
    (by rw [show default_config.include_deleted = false from rfl,
          show pageW2 = { after := some "t3_b", children := List.replicate 100 goodChild } from rfl,
          parse_replicate_goodChild]; simp)
    rfl
    (by rw [show default_config.include_deleted = false from rfl,
          show pageW3 = { after := none, children := List.replicate 37 goodChild } from rfl,
          parse_replicate_goodChild]; simp)
    rfl
  exact ⟨h.2, by rw [h.1]⟩

/-! ## Comment-tree lemmas -/

/-- A successfully parsed comment carries exactly the depth it was parsed
at (parser.py:212: `depth=depth`). -/
theorem parse_comment_depth (incl : Bool) (now : Nat) (data : RawCommentCore)
    (hR : Bool) (reps : List RChild) (pid sub : String) (d : Nat) (c : Comment)
    (h : parse_comment incl now data hR reps pid sub d = some c) : c.depth = d := by
  simp only [parse_comment] at h
  split_ifs at h
  all_goals first
  | rw [← Option.some.inj h]
  | exact absurd h (by simp)

/-- Every comment produced by the per-level walk started at a depth
within the bound stays within the bound. -/
theorem parseChildren_depth_le (incl : Bool) (now : Nat) (pid sub : String)
    (maxD : Nat) :
    ∀ (children : List RChild) (cur : Nat), cur ≤ maxD →
      ∀ c ∈ parseChildren incl now pid sub maxD children cur, c.depth ≤ maxD
  | [], cur, hcur, c, hc => by
    simp [parseChildren] at hc
  | .more :: rest, cur, hcur, c, hc => by
    simp only [parseChildren, List.nil_append] at hc
    exact parseChildren_depth_le incl now pid sub maxD rest cur hcur c hc
  | .otherKind k :: rest, cur, hcur, c, hc => by
    simp only [parseChildren, List.nil_append] at hc
    exact parseChildren_depth_le incl now pid sub maxD rest cur hcur c hc
  | .t1 data hR reps :: rest, cur, hcur, c, hc => by
    simp only [parseChildren] at hc
    rcases hp : parse_comment incl now data hR reps pid sub cur with _ | cm
    · rw [hp] at hc
      simp only [List.nil_append] at hc
      exact parseChildren_depth_le incl now pid sub maxD rest cur hcur c hc
    · rw [hp] at hc
      rcases List.mem_append.mp hc with h1 | h2
      · rcases List.mem_cons.mp h1 with rfl | h1'
        · have := parse_comment_depth incl now data hR reps pid sub cur c hp
          omega
        · rcases hhr : hR with _ | _
          · rw [hhr] at h1'
            simp at h1'
          · rw [hhr] at h1'
            simp only [if_pos] at h1'
            by_cases hd : cur + 1 > maxD
            · rw [if_pos hd] at h1'
              simp at h1'
            · rw [if_neg hd] at h1'
              exact parseChildren_depth_le incl now pid sub maxD reps (cur + 1)
                (by omega) c h1'
      · exact parseChildren_depth_le incl now pid sub maxD rest cur hcur c h2
termination_by children => sizeOf children

/-- Claim C5: the comment-tree parser started at depth 0 with maximum
depth `d` never produces a Comment whose `depth` exceeds `d`, for every
input tree. -/
theorem c5_depth_bound (incl : Bool) (now : Nat) (children : List RChild)
    (pid sub : String) (maxD : Nat) :
    ∀ c ∈ parse_comment_tree incl now children pid sub 0 maxD, c.depth ≤ maxD := by
  intro c hc
  unfold parse_comment_tree at hc
  split_ifs at hc with hd
  · simp at hc
  · exact parseChildren_depth_le incl now pid sub maxD children 0 (by omega) c hc

/-- Witness for C5: the root comment of the concrete tree `treeW`, parsed
with `maxDepth = 1`, has depth within the bound. -/
theorem c5_depth_bound_witness : cW.depth ≤ 1 :=
  c5_depth_bound false 0 treeW "p" "s" 1 cW (by
    simp [parse_comment_tree, parseChildren, parse_comment, treeW, cW,
      is_deleted_check, compute_content_hash, parse_timestamp])

/-! ## Media classification lemmas -/

/-- The source gallery-resolution loop computes exactly the spec-worded
per-item resolution. -/
theorem galleryUrls_eq_filterMap (items : List RawGalleryItem)
    (meta : List (String × RawMediaMeta)) :
    galleryUrls items meta = items.filterMap (galleryItemSpec meta) := by
  induction items with
  | nil => rfl
  | cons it rest ih =>
    rcases hmid : it.media_id with _ | mid
    · simp [galleryUrls, galleryItemSpec, hmid, List.filterMap_cons, ih]
    · by_cases hempty : mid = ""
      · simp [galleryUrls, galleryItemSpec, hmid, hempty, List.filterMap_cons, ih]
      · rcases hlook : meta.lookup mid with _ | m
        · simp [galleryUrls, galleryItemSpec, hmid, hempty, hlook, List.filterMap_cons, ih]
        · rcases hs : m.s with _ | sObj
          · simp [galleryUrls, galleryItemSpec, hmid, hempty, hlook, hs,
              List.filterMap_cons, ih]
          · by_cases hurl : (sObj.u.getD "").replace "&amp;" "&" = ""
            · simp [galleryUrls, galleryItemSpec, hmid, hempty, hlook, hs, hurl,
                List.filterMap_cons, ih]
            · simp [galleryUrls, galleryItemSpec, hmid, hempty, hlook, hs, hurl,
                List.filterMap_cons, ih]

/-- Claim C6: `_parse_media` classifies with the precedence self → video
→ gallery → link; the video url comes from the nested fallback field, the
gallery urls resolve each item's media id against the metadata map with
`&amp;` unescaped, and the link variant carries the raw URL and the
content-hint field. -/
theorem c6_media_precedence (raw : RawPost) :
    (raw.is_self.getD true = true → parse_media raw = some { type := "self" }) ∧
    (raw.is_self.getD true = false → raw.is_video.getD false = true →
      parse_media raw = some
        { type := "video"
          url := ((raw.media.bind RawMediaObj.reddit_video).bind RawVideo.fallback_url)
          thumbnail := raw.thumbnail }) ∧
    (raw.is_self.getD true = false → raw.is_video.getD false = false →
      raw.is_gallery.getD false = true →
      parse_media raw = some
        { type := "gallery"
          gallery_urls := (raw.gallery_items.filterMap (galleryItemSpec raw.media_metadata))
          thumbnail := raw.thumbnail }) ∧
    (raw.is_self.getD true = false → raw.is_video.getD false = false →
      raw.is_gallery.getD false = false →
      parse_media raw = some
        { type := raw.post_hint.getD "link"
          url := some (raw.url.getD "")
          thumbnail := raw.thumbnail }) := by
  refine ⟨?_, ?_, ?_, ?_⟩
  · intro hs
    simp [parse_media, hs]
  · intro hs hv
    simp [parse_media, hs, hv]
  · intro hs hv hg
    simp [parse_media, hs, hv, hg, galleryUrls_eq_filterMap]
  · intro hs hv hg
    simp [parse_media, hs, hv, hg]

/-- Witness for C6 on the concrete gallery payload `rawGalleryW`. -/
theorem c6_media_precedence_witness :
    parse_media rawGalleryW = some
      { type := "gallery"
        gallery_urls := (rawGalleryW.gallery_items.filterMap
          (galleryItemSpec rawGalleryW.media_metadata))
        thumbnail := some "thumb" } := by
  have h := (c6_media_precedence rawGalleryW).2.2.1 rfl rfl rfl
  exact h

/-! ## Fault handling and crawl-loop lemmas -/

/-- Claim C7: a uniqueness violation during an upsert yields the action
`"duplicate"` with the store rolled back to its pre-call state; any other
persistence failure yields `"error"` with the store rolled back; and the
crawl loop, on an `"error"` post upsert, records one error entry and
continues processing the remaining items from the unchanged store. -/
theorem c7_fault_handling :
    (∀ (st : DBState) (p : Post) (now : Nat),
      upsert_post (some .integrity) st p now = (st, false, "duplicate")) ∧
    (∀ (st : DBState) (p : Post) (now : Nat),
      upsert_post (some .other) st p now = (st, false, "error")) ∧
    (∀ (st : DBState) (c : Comment) (now : Nat),
      upsert_comment (some .integrity) st c now = (st, false, "duplicate")) ∧
    (∀ (st : DBState) (c : Comment) (now : Nat),
      upsert_comment (some .other) st c now = (st, false, "error")) ∧
    (∀ (cfg : CrawlerConfig) (fc : Bool) (commentsFor : Post → List Comment)
       (pfault cfault : String → Option PgErr) (now : Nat) (p : Post)
       (rest : List Post) (st : DBState) (cs : CrawlState) (pp cp : Nat)
       (errs : List String),
      pfault p.post_id = some .other →
      crawlLoop cfg fc commentsFor pfault cfault now (p :: rest) st cs pp cp errs =
        crawlLoop cfg fc commentsFor pfault cfault now rest st cs (pp + 1) cp
          (errs ++ ["Failed to upsert post " ++ p.post_id])) := by
  refine ⟨fun st p now => rfl, fun st p now => rfl, fun st c now => rfl,
    fun st c now => rfl, ?_⟩
  intro cfg fc commentsFor pfault cfault now p rest st cs pp cp errs hf
  simp [crawlLoop, hf, upsert_post]

/-- Witness for C7 at concrete inputs. -/
theorem c7_fault_handling_witness :
    upsert_post (some .integrity) {} pSample 1 = ({}, false, "duplicate") ∧
    upsert_comment (some .other) {} cSample 1 = ({}, false, "error") ∧
    crawlLoop default_config true (fun _ => []) (fun _ => some .other) (fun _ => none) 1
        [pSample] {} { subreddit := "s" } 0 0 [] =
      crawlLoop default_config true (fun _ => []) (fun _ => some .other) (fun _ => none) 1
        [] {} { subreddit := "s" } 1 0 ["Failed to upsert post " ++ pSample.post_id] := by
  have h := c7_fault_handling
  exact ⟨h.1 {} pSample 1, h.2.2.2.1 {} cSample 1,
    h.2.2.2.2 default_config true (fun _ => []) (fun _ => some .other) (fun _ => none) 1
      pSample [] {} { subreddit := "s" } 0 0 [] rfl⟩

/-- The per-level walk distributes over appended child lists — each
child's contribution is independent of its siblings. -/
theorem parseChildren_append (incl : Bool) (now : Nat) (pid sub : String)
    (maxD : Nat) (xs ys : List RChild) (cur : Nat) :
    parseChildren incl now pid sub maxD (xs ++ ys) cur =
      parseChildren incl now pid sub maxD xs cur ++
      parseChildren incl now pid sub maxD ys cur := by
  induction xs with
  | nil => simp [parseChildren]
  | cons x xs ih =>
    cases x with
    | more => simp [parseChildren, ih]
    | otherKind k => simp [parseChildren, ih]
    | t1 data hR reps => simp [parseChildren, ih, List.append_assoc]

/-- Claim C8: an exception inside one item's parse (modelled by a
non-well-formed payload) yields no record for that item and leaves every
remaining sibling parsed: `parse_post` returns nothing, the listing parse
of children containing the malformed item equals the parse without it,
and the comment-tree walk of a level containing a malformed comment child
equals the walk of its remaining siblings — no exception propagates, the
parse functions being total. -/
theorem c8_item_errors_skipped :
    (∀ (incl : Bool) (now : Nat) (raw : RawPost), raw.wellFormed = false →
      parse_post incl now raw = none) ∧
    (∀ (incl : Bool) (now : Nat) (after : Option String)
       (xs ys : List RawListingChild) (bad : RawListingChild),
      (bad.data.getD emptyRawPost).wellFormed = false →
      parse_post_listing incl now { after := after, children := xs ++ bad :: ys } =
        parse_post_listing incl now { after := after, children := xs ++ ys }) ∧
    (∀ (incl : Bool) (now : Nat) (pid sub : String) (maxD : Nat)
       (xs ys : List RChild) (data : RawCommentCore) (hR : Bool) (reps : List RChild)
       (cur : Nat),
      data.wellFormed = false →
      parseChildren incl now pid sub maxD (xs ++ RChild.t1 data hR reps :: ys) cur =
        parseChildren incl now pid sub maxD xs cur ++
        parseChildren incl now pid sub maxD ys cur) := by
  refine ⟨?_, ?_, ?_⟩
  · intro incl now raw h
    simp [parse_post, h]
  · intro incl now after xs ys bad h
    have hbad : (if bad.kind = some "t3" then
        parse_post incl now (bad.data.getD emptyRawPost) else none) = none := by
      split_ifs with hk
      · simp [parse_post, h]
      · rfl
    unfold parse_post_listing
    simp [List.filterMap_append, List.filterMap_cons, hbad]
  · intro incl now pid sub maxD xs ys data hR reps cur h
    have hnone : parse_comment incl now data hR reps pid sub cur = none := by
      simp [parse_comment, h]
    rw [parseChildren_append]
    congr 1
    simp [parseChildren, hnone]

/-- Witness for C8 at concrete malformed payloads. -/
theorem c8_item_errors_skipped_witness :
    parse_post false 0 badRaw = none ∧
    parse_post_listing false 0
        { after := none
          children := [goodChild] ++ { kind := some "t3", data := some badRaw } :: [goodChild] } =
      parse_post_listing false 0 { after := none, children := [goodChild] ++ [goodChild] } ∧
    parseChildren false 0 "p" "s" 5 ([] ++ RChild.t1 badCommentData false [] :: treeW) 0 =
      parseChildren false 0 "p" "s" 5 [] 0 ++ parseChildren false 0 "p" "s" 5 treeW 0 := by
  have h := c8_item_errors_skipped
  exact ⟨h.1 false 0 badRaw rfl,
    h.2.1 false 0 none [goodChild] [goodChild] { kind := some "t3", data := some badRaw } rfl,
    h.2.2 false 0 "p" "s" 5 [] treeW badCommentData false [] 0 rfl⟩

/-- Claim C9 concerns the sort mode `crawl_incremental` uses.  The code
fixes `fetch_comments=True` and `resume=False` but passes no sort mode:
`crawl` accepts none and `fetch_posts` falls back to the configured
default, so a configuration whose `sort_by` is `"top"` makes
`crawl_incremental` crawl with `"top"`, not `"new"` — contradicting both
the specification and the code's own inline comment (crawler.py:306). -/
theorem c9_incremental_sort_follows_config :
    crawl_incremental_sort_used { default_config with sort_by := "top" } = "top" ∧
    crawl_incremental_sort_used default_config = "new" ∧
    crawl_incremental_call_args = { fetch_comments := true, resume := false } ∧
    ("top" : String) ≠ "new" := by
  exact ⟨rfl, rfl, rfl, by decide⟩

/-- Any post upsert, faulting or not, leaves the comments table alone. -/
theorem upsert_post_comments_eq (fault : Option PgErr) (st : DBState) (p : Post)
    (now : Nat) : (upsert_post fault st p now).1.comments = st.comments := by
  rcases fault with _ | pe
  · rcases hfind : st.posts.find? (fun r => r.post_id == p.post_id) with _ | row
    · simp [upsert_post, hfind]
    · by_cases hh : (row.content_hash != p.content_hash) = true
      · simp [upsert_post, hfind, hh, logChange]
      · simp only [Bool.not_eq_true] at hh
        simp [upsert_post, hfind, hh]
  · cases pe <;> rfl

/-- Saving a crawl state leaves the comments table alone. -/
theorem save_crawl_state_comments_eq (st : DBState) (s : CrawlState) :
    (save_crawl_state st s).comments = st.comments := by
  unfold save_crawl_state
  split_ifs <;> rfl

/-- When the comment gate `fetch_comments && config.fetch_all_comments`
is off, the crawl loop counts zero comments and never touches the
comments table. -/
theorem crawlLoop_comments_disabled (cfg : CrawlerConfig) (fc : Bool)
    (commentsFor : Post → List Comment) (pfault cfault : String → Option PgErr)
    (now : Nat) (hfc : (fc && cfg.fetch_all_comments) = false) :
    ∀ (posts : List Post) (st : DBState) (cs : CrawlState) (pp cp : Nat)
      (errs : List String),
      (crawlLoop cfg fc commentsFor pfault cfault now posts st cs pp cp errs).2.2.2.1 = cp ∧
      (crawlLoop cfg fc commentsFor pfault cfault now posts st cs pp cp errs).1.comments =
        st.comments := by
  intro posts
  induction posts with
  | nil =>
    intro st cs pp cp errs
    exact ⟨rfl, rfl⟩
  | cons p rest ih =>
    intro st cs pp cp errs
    have hcomm := upsert_post_comments_eq (pfault p.post_id) st p now
    by_cases he : ((upsert_post (pfault p.post_id) st p now).2.2 == "error") = true
    · have hstep : crawlLoop cfg fc commentsFor pfault cfault now (p :: rest) st cs pp cp errs =
          crawlLoop cfg fc commentsFor pfault cfault now rest
            (upsert_post (pfault p.post_id) st p now).1 cs (pp + 1) cp
            (errs ++ ["Failed to upsert post " ++ p.post_id]) := by
        simp [crawlLoop, he]
      rw [hstep]
      have h := ih (upsert_post (pfault p.post_id) st p now).1 cs (pp + 1) cp
        (errs ++ ["Failed to upsert post " ++ p.post_id])
      exact ⟨h.1, by rw [h.2, hcomm]⟩
    · by_cases hmod : ((pp + 1) % 10 == 0) = true
      · have hstep : crawlLoop cfg fc commentsFor pfault cfault now (p :: rest) st cs pp cp errs =
            crawlLoop cfg fc commentsFor pfault cfault now rest
              (save_crawl_state (upsert_post (pfault p.post_id) st p now).1
                { cs with posts_crawled := pp + 1, comments_crawled := cp
                          last_post_id := some p.post_id, last_activity := now })
              { cs with posts_crawled := pp + 1, comments_crawled := cp
                        last_post_id := some p.post_id, last_activity := now }
              (pp + 1) cp errs := by
          simp [crawlLoop, he, hfc, hmod]
        rw [hstep]
        have h := ih (save_crawl_state (upsert_post (pfault p.post_id) st p now).1
            { cs with posts_crawled := pp + 1, comments_crawled := cp
                      last_post_id := some p.post_id, last_activity := now })
          { cs with posts_crawled := pp + 1, comments_crawled := cp
                    last_post_id := some p.post_id, last_activity := now }
          (pp + 1) cp errs
        exact ⟨h.1, by rw [h.2, save_crawl_state_comments_eq, hcomm]⟩
      · have hstep : crawlLoop cfg fc commentsFor pfault cfault now (p :: rest) st cs pp cp errs =
            crawlLoop cfg fc commentsFor pfault cfault now rest
              (upsert_post (pfault p.post_id) st p now).1 cs (pp + 1) cp errs := by
          simp [crawlLoop, he, hfc, hmod]
        rw [hstep]
        have h := ih (upsert_post (pfault p.post_id) st p now).1 cs (pp + 1) cp errs
        exact ⟨h.1, by rw [h.2, hcomm]⟩

/-- Claim C10: when the configuration's `fetch_all_comments` flag is
false, a crawl invoked with `fetch_comments = true` fetches and upserts
zero comments: the returned `comments_fetched` is 0 and the comments
table is exactly as before the crawl, even though the caller requested
comments. -/
theorem c10_comment_fetch_gated (cfg : CrawlerConfig)
    (hcfg : cfg.fetch_all_comments = false)
    (subreddit_arg : Option String) (max_posts_arg : Option Nat) (resume : Bool)
    (server : Nat → FetchResponse) (commentsFor : Post → List Comment)
    (pfault cfault : String → Option PgErr) (now : Nat) (st : DBState) :
    (crawl cfg subreddit_arg max_posts_arg true resume server commentsFor
      pfault cfault now st).1.comments_fetched = 0 ∧
    (crawl cfg subreddit_arg max_posts_arg true resume server commentsFor
      pfault cfault now st).2.comments = st.comments := by
  have hfc : (true && cfg.fetch_all_comments) = false := by simp [hcfg]
  have hloop := crawlLoop_comments_disabled cfg true commentsFor pfault cfault now hfc
  constructor
  · show (crawlLoop cfg true commentsFor pfault cfault now _ st _ 0 0 []).2.2.2.1 = 0
    exact (hloop _ _ _ _ _ _).1
  · show (save_crawl_state (crawlLoop cfg true commentsFor pfault cfault now _ st _ 0 0 []).1
      _).comments = st.comments
    rw [save_crawl_state_comments_eq]
    exact (hloop _ _ _ _ _ _).2

/-- Witness for C10: a concrete crawl with comments requested but the
flag off touches no comments. -/
theorem c10_comment_fetch_gated_witness :
    (crawl { default_config with fetch_all_comments := false } none none true false
      (fun _ => FetchResponse.err "down") (fun _ => [cSample]) (fun _ => none)
      (fun _ => none) 5 {}).1.comments_fetched = 0 ∧
    (crawl { default_config with fetch_all_comments := false } none none true false
      (fun _ => FetchResponse.err "down") (fun _ => [cSample]) (fun _ => none)
      (fun _ => none) 5 {}).2.comments = ({} : DBState).comments :=
  c10_comment_fetch_gated { default_config with fetch_all_comments := false } rfl
    none none false (fun _ => FetchResponse.err "down") (fun _ => [cSample])
    (fun _ => none) (fun _ => none) 5 {}

end Crawler
